import Mathlib

/-!
Shallow embedding of `src/i1_growlights.py` (AppDaemon GrowLights app).

The app decides, on each periodic tick, whether configured grow-light
switches should be commanded on or off, from the calendar month, the
wall-clock time of day, a UV-index sensor reading and the state of the
first configured switch. We embed the decision logic as pure Lean
functions over explicit inputs; fallible host calls (`get_state`,
`turn_on`/`turn_off`) are modelled by `Option`/`Except` results supplied
by an environment record, and Python `try`/`except` blocks by an explicit
`pyTry` combinator.
-/

namespace GrowLights

/-- A wall-clock time of day as produced by
`datetime.datetime.strptime(s, "%H:%M").time()`: an hour and a minute.
Python `time` objects compare lexicographically on (hour, minute,
second, microsecond); seconds and microseconds are always zero here. -/
structure PTime where
  hour : Nat
  minute : Nat
deriving DecidableEq, Repr

/-- Python `<=` on two `time` values with zero seconds: lexicographic on
(hour, minute). -/
def PTime.le (a b : PTime) : Bool :=
  decide (a.hour < b.hour) || (decide (a.hour = b.hour) && decide (a.minute ≤ b.minute))

/-- Configuration held on `self` after `initialize` ran: raw config
values and the parsed time boundaries (`_parse_time_configs`). The UV
threshold is numeric (Python number); we model it in ℚ. -/
structure Config where
  uv_sensor : String
  uv_threshold : ℚ
  switches : List String
  off_season_start : String
  off_season_end : String
  on_season_start : String
  on_season_end : String
  off_season_start_time : PTime
  off_season_end_time : PTime
  on_season_start_time : PTime
  on_season_end_time : PTime
deriving DecidableEq, Repr

/-- `is_summer_season`: the current month is June, July or August
(`6 <= current_month <= 8`). The `except` branch of the source cannot
fire (`datetime.datetime.now().month` does not raise), so the embedding
is the `try` body. The month is an input rather than read from a clock. -/
def is_summer_season (month : Nat) : Bool :=
  decide (6 ≤ month) && decide (month ≤ 8)

/-- `is_active_time`: in summer the on-season window applies, otherwise
the off-season window; membership is inclusive at both ends
(`start <= current_time <= end`). The `except` branch of the source
cannot fire on these pure comparisons. -/
def is_active_time (cfg : Config) (month : Nat) (t : PTime) : Bool :=
  if is_summer_season month then
    cfg.on_season_start_time.le t && t.le cfg.on_season_end_time
  else
    cfg.off_season_start_time.le t && t.le cfg.off_season_end_time

/-- `get_uv_index`, with the host call `self.get_state(self.uv_sensor)`
already performed and its result passed in as `uv_state` (`none` models
Python `None`), and Python `float(·)` passed in abstractly as `pyFloat`
(`none` models a raised `ValueError`, which the source catches and turns
into `None`). Returns the UV value, or `none` when the sensor state is
missing, the string "unavailable", or unparsable. -/
def get_uv_index (pyFloat : String → Option ℚ) (uv_state : Option String) :
    Option ℚ :=
  match uv_state with
  | none => none
  | some s => if s = "unavailable" then none else pyFloat s

/-- The inputs one evaluation tick of `check_conditions` observes from
the host: the calendar month and time of day of `datetime.now()`, the
raw state `get_state` returns for the UV sensor, and the raw state it
returns for the first configured switch. -/
structure TickEnv where
  month : Nat
  time : PTime
  uv_state : Option String
  switch_state : Option String
deriving DecidableEq, Repr

/-- `check_conditions`: the per-tick decision. Returns `none` when the
tick ends without calling `control_lights` (an early `return`), and
`some b` when it calls `control_lights(b)` — note the source passes
`current_state == "on"` as the argument. -/
def check_conditions (pyFloat : String → Option ℚ) (cfg : Config)
    (env : TickEnv) : Option Bool :=
  if is_active_time cfg env.month env.time then
    match get_uv_index pyFloat env.uv_state with
    | none => none
    | some uv_index =>
      let current_state : Option String :=
        match cfg.switches with
        | [] => none
        | _ :: _ => env.switch_state
      if uv_index ≥ cfg.uv_threshold ∧ current_state = some "off" then none
      else if uv_index < cfg.uv_threshold ∧ current_state = some "on" then none
      else some (current_state = some "on")
  else none

/-- `control_lights(turn_on)`: one `turn_on`/`turn_off` host call per
configured switch; `(s, true)` records `turn_on(s)` and `(s, false)`
records `turn_off(s)`. -/
def control_lights (switches : List String) (turn_on : Bool) :
    List (String × Bool) :=
  switches.map (fun s => (s, turn_on))

/-- All switch commands a tick issues: none on an early return, else one
batched `control_lights` pass over every configured switch. -/
def tick_commands (pyFloat : String → Option ℚ) (cfg : Config)
    (env : TickEnv) : List (String × Bool) :=
  match check_conditions pyFloat cfg env with
  | none => []
  | some b => control_lights cfg.switches b

/-- Split a character list at every colon. -/
def splitOnColon : List Char → List (List Char)
  | [] => [[]]
  | c :: rest =>
    if c = ':' then [] :: splitOnColon rest
    else
      match splitOnColon rest with
      | [] => [[c]]
      | p :: ps => (c :: p) :: ps

/-- The decimal value of a field of one or two ASCII digits; `none`
when the field is empty, longer than two characters, or not all
digits. -/
def fieldVal (cs : List Char) : Option Nat :=
  if cs ≠ [] ∧ cs.length ≤ 2 ∧ cs.all Char.isDigit then
    some (cs.foldl (fun n c => 10 * n + (c.toNat - 48)) 0)
  else none

/-- `datetime.datetime.strptime(s, "%H:%M").time()` as a total function
into `Option`: `none` models a raised `ValueError`. The `%H` directive
matches one or two digits with value ≤ 23, `%M` one or two digits with
value ≤ 59, separated by a literal colon, and the whole string must be
consumed. -/
def parse_time (s : String) : Option PTime :=
  match splitOnColon s.data with
  | [h, m] =>
    match fieldVal h, fieldVal m with
    | some hv, some mv =>
      if hv ≤ 23 ∧ mv ≤ 59 then some ⟨hv, mv⟩ else none
    | _, _ => none
  | _ => none

/-- The `self.args` dictionary as `initialize` reads it: `none` models a
key that is absent (`dict.get` returning `None` or the default being
taken). -/
structure Args where
  uv_index_sensor : Option String
  uv_index_threshold : Option ℚ
  switches : Option (List String)
  off_season_start : Option String
  off_season_end : Option String
  on_season_start : Option String
  on_season_end : Option String
deriving DecidableEq, Repr

/-- What a successful `initialize` leaves behind: the populated
configuration and the scheduling calls it made — `run_in(check, 0)`,
`run_every(check, "now", 600)` and `run_daily(update, "00:01")`. -/
structure InitOutcome where
  config : Config
  run_in_delay : Nat
  run_every_interval : Nat
  run_daily_time : String
deriving DecidableEq, Repr

/-- `initialize`: read the args with their defaults, reject a missing or
empty sensor id (`if not self.uv_sensor`) and an empty switch list, then
parse the four boundary times; a `ValueError` from `_parse_time_configs`
propagates to the outer handler, so nothing is scheduled. Returns `none`
when an error was logged and no tick was scheduled, `some` with the
scheduling calls otherwise. -/
def growInit (args : Args) : Option InitOutcome :=
  match args.uv_index_sensor with
  | none => none
  | some sensor =>
    if sensor = "" then none
    else if args.switches.getD [] = [] then none
    else
      match parse_time (args.off_season_start.getD "09:00"),
          parse_time (args.off_season_end.getD "15:00"),
          parse_time (args.on_season_start.getD "06:00"),
          parse_time (args.on_season_end.getD "18:00") with
      | some a, some b, some c, some d =>
        some { config := { uv_sensor := sensor,
                           uv_threshold := args.uv_index_threshold.getD 5,
                           switches := args.switches.getD [],
                           off_season_start := args.off_season_start.getD "09:00",
                           off_season_end := args.off_season_end.getD "15:00",
                           on_season_start := args.on_season_start.getD "06:00",
                           on_season_end := args.on_season_end.getD "18:00",
                           off_season_start_time := a, off_season_end_time := b,
                           on_season_start_time := c, on_season_end_time := d },
               run_in_delay := 0, run_every_interval := 600,
               run_daily_time := "00:01" }
      | _, _, _, _ => none

/-- `update_time_ranges`: the daily 00:01 hook. It only picks the
season's raw boundary strings and logs them; the embedding returns the
(unchanged) configuration, the list of switch commands it issues (none),
and the log line it emits. -/
def update_time_ranges (cfg : Config) (month : Nat) :
    Config × List (String × Bool) × String :=
  let is_summer := is_summer_season month
  let season_name := if is_summer then "summer" else "winter"
  let start_time := if is_summer then cfg.on_season_start else cfg.off_season_start
  let end_time := if is_summer then cfg.on_season_end else cfg.off_season_end
  (cfg, [],
   "Updated to " ++ season_name ++ " schedule: " ++ start_time ++ " - " ++ end_time)

/-! ## Exception-level model

For the safety claim about exception flow we re-embed the tick with the
host calls allowed to raise: each call returns `Except Err α`, a Python
`try/except Exception` block is the total `pyTry`, and the tick produces
the trace of per-switch commands together with each command's own
outcome. -/

/-- A raised Python exception, abstracted to its message. -/
def Err := String

/-- `try: body except Exception: handler` where the handler cannot
itself raise. -/
def pyTry {α : Type} (body : Except Err α) (handler : Err → α) : α :=
  match body with
  | .ok a => a
  | .error e => handler e

/-- The host interface a tick uses, every call fallible: `get_state` on
an entity id, and the `turn_on`/`turn_off` command on a switch
(`Bool` argument `true` for on). -/
structure HostEnv where
  month : Nat
  time : PTime
  get_state : String → Except Err (Option String)
  set_switch : String → Bool → Except Err Unit

/-- `get_uv_index` at the exception level: the whole body is wrapped in
`try`, and both a raising `get_state` and a `ValueError` from `float`
(here `pyFloatE s = .error _`) are caught and turned into `None`. Never
raises, by the outer `pyTry`. -/
def get_uv_index_exc (pyFloatE : String → Except Err ℚ) (env : HostEnv)
    (sensor : String) : Option ℚ :=
  pyTry
    (do
      let uv_state ← env.get_state sensor
      match uv_state with
      | none => pure none
      | some s =>
        if s = "unavailable" then pure none
        else do
          let v ← pyFloatE s
          pure (some v))
    (fun _ => none)

/-- The `for switch in self.switches` loop of `control_lights`: each
iteration performs the command inside its own `try/except`, so a failing
command is recorded and the loop continues with the remaining switches.
Returns the trace of commands actually attempted, with each outcome. -/
def control_lights_loop (env : HostEnv) (turn_on : Bool) :
    List String → List (String × Bool × Except Err Unit)
  | [] => []
  | s :: rest =>
    let r := env.set_switch s turn_on
    let _handled := pyTry (do let _u ← r; pure ()) (fun _ => ())
    (s, turn_on, r) :: control_lights_loop env turn_on rest

/-- `control_lights` at the exception level: an outer `try` around the
loop (whose body, with every iteration already guarded, cannot raise). -/
def control_lights_exc (env : HostEnv) (switches : List String)
    (turn_on : Bool) : List (String × Bool × Except Err Unit) :=
  pyTry (pure (control_lights_loop env turn_on switches)) (fun _ => [])

/-- The body of `check_conditions` before its outer `except Exception`
handler: the one call that can raise out of it is `get_state` on the
first switch (the sensor read is guarded inside `get_uv_index_exc` and
every switch command inside `control_lights`). Returns the trace of
switch commands the tick issued. -/
def check_conditions_body (pyFloatE : String → Except Err ℚ) (cfg : Config)
    (env : HostEnv) : Except Err (List (String × Bool × Except Err Unit)) := do
  if is_active_time cfg env.month env.time then
    match get_uv_index_exc pyFloatE env cfg.uv_sensor with
    | none => pure []
    | some uv_index => do
      let current_state : Option String ←
        match cfg.switches with
        | [] => pure none
        | s0 :: _ => env.get_state s0
      if uv_index ≥ cfg.uv_threshold ∧ current_state = some "off" then pure []
      else if uv_index < cfg.uv_threshold ∧ current_state = some "on" then pure []
      else pure (control_lights_exc env cfg.switches (current_state = some "on"))
  else pure []

/-- `check_conditions` at the exception level: the body under the outer
`try/except Exception`, which logs and falls off the end (no commands
issued on the handled path). -/
def check_conditions_exc (pyFloatE : String → Except Err ℚ) (cfg : Config)
    (env : HostEnv) : List (String × Bool × Except Err Unit) :=
  pyTry (check_conditions_body pyFloatE cfg env) (fun _ => [])

/-! ## Concrete fixtures

A sample `float` fragment and the configuration obtained from the
default boundary times with threshold 5, used for the concrete
scenarios of the testable properties. -/

/-- A fragment of Python `float`: parses "3" and "7", raises
(`none`) on everything else — enough for the concrete scenarios. -/
def pyFloat_sample : String → Option ℚ :=
  fun s => if s = "3" then some 3 else if s = "7" then some 7 else none

/-- The configuration produced by the default args: threshold 5,
off-season window 09:00–15:00, on-season window 06:00–18:00, two
switches. -/
def cfg_default : Config :=
  { uv_sensor := "sensor.uv"
    uv_threshold := 5
    switches := ["switch.g1", "switch.g2"]
    off_season_start := "09:00"
    off_season_end := "15:00"
    on_season_start := "06:00"
    on_season_end := "18:00"
    off_season_start_time := ⟨9, 0⟩
    off_season_end_time := ⟨15, 0⟩
    on_season_start_time := ⟨6, 0⟩
    on_season_end_time := ⟨18, 0⟩ }

/-! ## Helper lemmas -/

theorem PTime.le_iff {a b : PTime} :
    PTime.le a b = true ↔ (a.hour < b.hour ∨ (a.hour = b.hour ∧ a.minute ≤ b.minute)) := by
  simp [PTime.le]

theorem PTime.le_refl (a : PTime) : PTime.le a a = true := by
  simp [PTime.le]

theorem PTime.le_trans {a b c : PTime} (hab : PTime.le a b = true)
    (hbc : PTime.le b c = true) : PTime.le a c = true := by
  rw [PTime.le_iff] at hab hbc ⊢
  omega

/-- An inactive tick stops at the first early return: `control_lights`
is never called and no switch command is issued. -/
theorem tick_skipped_of_inactive (pyFloat : String → Option ℚ)
    (cfg : Config) (env : TickEnv)
    (h : is_active_time cfg env.month env.time = false) :
    check_conditions pyFloat cfg env = none ∧
      tick_commands pyFloat cfg env = [] := by
  have hc : check_conditions pyFloat cfg env = none := by
    unfold check_conditions
    simp [h]
  exact ⟨hc, by unfold tick_commands; simp [hc]⟩

/-- A tick whose UV read yields `None` stops at the second early
return: no switch command is issued. -/
theorem tick_skipped_of_no_uv (pyFloat : String → Option ℚ)
    (cfg : Config) (env : TickEnv)
    (h : get_uv_index pyFloat env.uv_state = none) :
    check_conditions pyFloat cfg env = none ∧
      tick_commands pyFloat cfg env = [] := by
  have hc : check_conditions pyFloat cfg env = none := by
    unfold check_conditions
    split
    · rw [h]
    · rfl
  exact ⟨hc, by unfold tick_commands; simp [hc]⟩

/-! ## Claims -/

/-- C1: the spec requires that inside the active window a UV reading
≥ threshold yields a turn-off command to switches that are on, and a
reading < threshold a turn-on command to switches that are off — in
July at 10:00 with threshold 5, switches off and UV=3 should produce
"turn on" and switches on and UV=7 "turn off". The code does the
opposite: `check_conditions` passes `current_state == "on"` to
`control_lights`, so at (month=7, 10:00, UV="3", state "off") it calls
`control_lights(False)` (turn-off commands to both switches), and at
(month=7, 10:00, UV="7", state "on") it calls `control_lights(True)`
(turn-on commands) — contradicting the module docstring ("Lights are
turned off when UV index is 5 or above during active hours") and the
log text of its own branches. -/
theorem C1_uv_decision_inverted :
    check_conditions pyFloat_sample cfg_default ⟨7, ⟨10, 0⟩, some "3", some "off"⟩
        = some false
    ∧ tick_commands pyFloat_sample cfg_default ⟨7, ⟨10, 0⟩, some "3", some "off"⟩
        = [("switch.g1", false), ("switch.g2", false)]
    ∧ check_conditions pyFloat_sample cfg_default ⟨7, ⟨10, 0⟩, some "7", some "on"⟩
        = some true
    ∧ tick_commands pyFloat_sample cfg_default ⟨7, ⟨10, 0⟩, some "7", some "on"⟩
        = [("switch.g1", true), ("switch.g2", true)] := by
  refine ⟨rfl, rfl, rfl, rfl⟩

/-- C2 counterexample: in January at 16:00 (outside the 09:00–15:00
off-season window) with the switches on, the claim expects a turn-off
command on that tick; the code returns at the `is_active_time` guard
and issues no command at all. -/
theorem C2_counterexample :
    check_conditions pyFloat_sample cfg_default ⟨1, ⟨16, 0⟩, some "3", some "on"⟩ = none
    ∧ tick_commands pyFloat_sample cfg_default ⟨1, ⟨16, 0⟩, some "3", some "on"⟩ = [] := by
  refine ⟨rfl, rfl⟩

/-- C2 amended: for every tick outside the active window the evaluation
returns early; no switch command of any kind is issued, whatever the UV
reading and the current switch state (switches left on stay on). -/
theorem C2_outside_window_tick_skipped (pyFloat : String → Option ℚ)
    (cfg : Config) (env : TickEnv)
    (h : is_active_time cfg env.month env.time = false) :
    check_conditions pyFloat cfg env = none ∧
      tick_commands pyFloat cfg env = [] :=
  tick_skipped_of_inactive pyFloat cfg env h

theorem C2_witness :
    is_active_time cfg_default 1 ⟨16, 0⟩ = false
    ∧ check_conditions pyFloat_sample cfg_default ⟨1, ⟨16, 0⟩, some "3", some "on"⟩ = none
    ∧ tick_commands pyFloat_sample cfg_default ⟨1, ⟨16, 0⟩, some "3", some "on"⟩ = [] := by
  have h := C2_outside_window_tick_skipped pyFloat_sample cfg_default
    ⟨1, ⟨16, 0⟩, some "3", some "on"⟩ (by decide)
  exact ⟨by decide, h.1, h.2⟩

/-- C3 counterexample: in July at 10:00 with the UV sensor reporting
"unavailable" and the switches off, the claim expects a fail-open
turn-on command; the code logs an error and returns with no command. -/
theorem C3_counterexample :
    check_conditions pyFloat_sample cfg_default
        ⟨7, ⟨10, 0⟩, some "unavailable", some "off"⟩ = none
    ∧ tick_commands pyFloat_sample cfg_default
        ⟨7, ⟨10, 0⟩, some "unavailable", some "off"⟩ = [] := by
  refine ⟨rfl, rfl⟩

/-- C3 amended: on every tick whose UV read yields no numeric value
(sensor state missing, "unavailable", or unparsable), the evaluation
aborts with no command — fail-soft, not fail-open: switches that are
off stay off. -/
theorem C3_uv_unavailable_tick_skipped (pyFloat : String → Option ℚ)
    (cfg : Config) (env : TickEnv)
    (h : get_uv_index pyFloat env.uv_state = none) :
    check_conditions pyFloat cfg env = none ∧
      tick_commands pyFloat cfg env = [] :=
  tick_skipped_of_no_uv pyFloat cfg env h

theorem C3_witness :
    get_uv_index pyFloat_sample (some "unavailable") = none
    ∧ check_conditions pyFloat_sample cfg_default
        ⟨7, ⟨10, 0⟩, some "unavailable", some "off"⟩ = none
    ∧ tick_commands pyFloat_sample cfg_default
        ⟨7, ⟨10, 0⟩, some "unavailable", some "off"⟩ = [] := by
  have h := C3_uv_unavailable_tick_skipped pyFloat_sample cfg_default
    ⟨7, ⟨10, 0⟩, some "unavailable", some "off"⟩ rfl
  exact ⟨rfl, h.1, h.2⟩

/-- C4 counterexample: in July at 10:00 with UV=3 and the first switch
reporting "unavailable", the claim expects the cycle to abort with no
action; the code never checks the switch state for availability, falls
through both early-return branches, and issues a turn-off command to
every switch. -/
theorem C4_counterexample :
    check_conditions pyFloat_sample cfg_default
        ⟨7, ⟨10, 0⟩, some "3", some "unavailable"⟩ = some false
    ∧ tick_commands pyFloat_sample cfg_default
        ⟨7, ⟨10, 0⟩, some "3", some "unavailable"⟩
      = [("switch.g1", false), ("switch.g2", false)] := by
  refine ⟨rfl, rfl⟩

/-- C4 amended: on a tick inside the active window with a valid UV
reading, an unobtainable representative switch state (missing or
"unavailable") does not abort the cycle: the state is neither "off" nor
"on", so neither early return fires and `control_lights(False)` issues
a turn-off command across all configured switches. -/
theorem C4_unobtainable_switch_state_turns_off (pyFloat : String → Option ℚ)
    (cfg : Config) (env : TickEnv) (uv : ℚ)
    (hact : is_active_time cfg env.month env.time = true)
    (huv : get_uv_index pyFloat env.uv_state = some uv)
    (hsw : env.switch_state = none ∨ env.switch_state = some "unavailable") :
    check_conditions pyFloat cfg env = some false ∧
      tick_commands pyFloat cfg env = control_lights cfg.switches false := by
  have hc : check_conditions pyFloat cfg env = some false := by
    unfold check_conditions
    rw [hact, if_pos rfl, huv]
    cases cfg.switches with
    | nil => simp
    | cons a l => rcases hsw with h | h <;> simp [h]
  refine ⟨hc, ?_⟩
  unfold tick_commands
  rw [hc]

theorem C4_witness :
    is_active_time cfg_default 7 ⟨10, 0⟩ = true
    ∧ get_uv_index pyFloat_sample (some "3") = some 3
    ∧ check_conditions pyFloat_sample cfg_default
        ⟨7, ⟨10, 0⟩, some "3", some "unavailable"⟩ = some false
    ∧ tick_commands pyFloat_sample cfg_default
        ⟨7, ⟨10, 0⟩, some "3", some "unavailable"⟩
      = control_lights cfg_default.switches false := by
  have h := C4_unobtainable_switch_state_turns_off pyFloat_sample cfg_default
    ⟨7, ⟨10, 0⟩, some "3", some "unavailable"⟩ 3 (by decide) rfl (Or.inr rfl)
  exact ⟨by decide, rfl, h.1, h.2⟩

/-- C5: idempotence of a tick — in each of the three matching cases
(off and outside the window; off with UV at or above threshold inside
the window; on with UV below threshold inside the window) no switch
command is issued. -/
theorem C5_idempotent_tick (pyFloat : String → Option ℚ) (cfg : Config)
    (env : TickEnv) :
    (is_active_time cfg env.month env.time = false →
        env.switch_state = some "off" → tick_commands pyFloat cfg env = [])
    ∧ (∀ uv : ℚ, is_active_time cfg env.month env.time = true →
        get_uv_index pyFloat env.uv_state = some uv →
        cfg.uv_threshold ≤ uv → env.switch_state = some "off" →
        tick_commands pyFloat cfg env = [])
    ∧ (∀ uv : ℚ, is_active_time cfg env.month env.time = true →
        get_uv_index pyFloat env.uv_state = some uv →
        uv < cfg.uv_threshold → env.switch_state = some "on" →
        tick_commands pyFloat cfg env = []) := by
  refine ⟨fun h _ => (tick_skipped_of_inactive pyFloat cfg env h).2, ?_, ?_⟩
  · intro uv hact huv hth hsw
    unfold tick_commands check_conditions
    rw [hact, if_pos rfl, huv]
    cases cfg.switches with
    | nil => simp [control_lights]
    | cons a l => simp [hsw, hth]
  · intro uv hact huv hth hsw
    unfold tick_commands check_conditions
    rw [hact, if_pos rfl, huv]
    cases cfg.switches with
    | nil => simp [control_lights]
    | cons a l => simp [hsw, hth, not_lt.mpr (le_of_lt hth)]

theorem C5_witness :
    is_active_time cfg_default 7 ⟨19, 0⟩ = false
    ∧ tick_commands pyFloat_sample cfg_default ⟨7, ⟨19, 0⟩, some "3", some "off"⟩ = [] :=
  ⟨by decide,
   (C5_idempotent_tick pyFloat_sample cfg_default
      ⟨7, ⟨19, 0⟩, some "3", some "off"⟩).1 (by decide) rfl⟩

/-- `initialize` succeeds (something was scheduled) exactly when the
sensor id is present and non-empty, the switch list non-empty, and all
four boundary strings parse. -/
theorem growInit_isSome_iff (args : Args) :
    (growInit args).isSome = true ↔
      ((∃ sensor, args.uv_index_sensor = some sensor ∧ sensor ≠ "")
        ∧ args.switches.getD [] ≠ []
        ∧ (parse_time (args.off_season_start.getD "09:00")).isSome = true
        ∧ (parse_time (args.off_season_end.getD "15:00")).isSome = true
        ∧ (parse_time (args.on_season_start.getD "06:00")).isSome = true
        ∧ (parse_time (args.on_season_end.getD "18:00")).isSome = true) := by
  unfold growInit
  rcases hs : args.uv_index_sensor with _ | sensor
  · simp
  · dsimp only
    by_cases hse : sensor = ""
    · simp [hse]
    · rw [if_neg hse]
      by_cases hsw : args.switches.getD [] = []
      · simp [hsw, hse]
      · rw [if_neg hsw]
        rcases h1 : parse_time (args.off_season_start.getD "09:00") with _ | t1 <;>
          rcases h2 : parse_time (args.off_season_end.getD "15:00") with _ | t2 <;>
            rcases h3 : parse_time (args.on_season_start.getD "06:00") with _ | t3 <;>
              rcases h4 : parse_time (args.on_season_end.getD "18:00") with _ | t4 <;>
                simp [hse, hsw]

/-- Whenever `initialize` succeeds it made exactly the three scheduling
calls of the source: the immediate check, the 10-minute periodic check
and the 00:01 daily hook. -/
theorem growInit_sched (args : Args) (out : InitOutcome)
    (h : growInit args = some out) :
    out.run_in_delay = 0 ∧ out.run_every_interval = 600 ∧
      out.run_daily_time = "00:01" := by
  unfold growInit at h
  rcases hs : args.uv_index_sensor with _ | sensor <;> rw [hs] at h <;> dsimp only at h
  · exact Option.noConfusion h
  · by_cases hse : sensor = ""
    · rw [if_pos hse] at h; exact absurd h (by simp)
    · rw [if_neg hse] at h
      by_cases hsw : args.switches.getD [] = []
      · rw [if_pos hsw] at h; exact absurd h (by simp)
      · rw [if_neg hsw] at h
        rcases hp1 : parse_time (args.off_season_start.getD "09:00") with _ | t1 <;>
          rcases hp2 : parse_time (args.off_season_end.getD "15:00") with _ | t2 <;>
            rcases hp3 : parse_time (args.on_season_start.getD "06:00") with _ | t3 <;>
              rcases hp4 : parse_time (args.on_season_end.getD "18:00") with _ | t4 <;>
                rw [hp1, hp2, hp3, hp4] at h <;> dsimp only at h <;>
                  first
                    | exact Option.noConfusion h
                    | (injection h with h; subst h; exact ⟨rfl, rfl, rfl⟩)

/-- C6: a configuration missing the sensor id (or with an empty one),
or with a missing/empty switch list, or with any boundary time that
fails to parse as HH:MM, yields an initialization error with nothing
scheduled; a configuration with a non-empty sensor id, a non-empty
switch list and four parsable boundary times schedules the immediate
check, the 600-second periodic check and the "00:01" daily hook. -/
theorem C6_init_validation (args : Args) :
    ((args.uv_index_sensor = none ∨ args.uv_index_sensor = some ""
        ∨ args.switches.getD [] = []
        ∨ parse_time (args.off_season_start.getD "09:00") = none
        ∨ parse_time (args.off_season_end.getD "15:00") = none
        ∨ parse_time (args.on_season_start.getD "06:00") = none
        ∨ parse_time (args.on_season_end.getD "18:00") = none) →
      growInit args = none)
    ∧ (∀ sensor : String, args.uv_index_sensor = some sensor → sensor ≠ "" →
        args.switches.getD [] ≠ [] →
        (parse_time (args.off_season_start.getD "09:00")).isSome = true →
        (parse_time (args.off_season_end.getD "15:00")).isSome = true →
        (parse_time (args.on_season_start.getD "06:00")).isSome = true →
        (parse_time (args.on_season_end.getD "18:00")).isSome = true →
        ∃ out : InitOutcome, growInit args = some out
          ∧ out.run_in_delay = 0 ∧ out.run_every_interval = 600
          ∧ out.run_daily_time = "00:01") := by
  constructor
  · intro h
    cases hg : growInit args with
    | none => rfl
    | some out =>
      have hiff := (growInit_isSome_iff args).1 (by rw [hg]; rfl)
      obtain ⟨⟨sensor, hs, hse⟩, hsw, h1, h2, h3, h4⟩ := hiff
      rcases h with h | h | h | h | h | h | h
      · rw [h] at hs; exact Option.noConfusion hs
      · rw [h] at hs
        injection hs with he
        exact absurd he.symm hse
      · exact absurd h hsw
      · rw [h] at h1; exact Bool.noConfusion h1
      · rw [h] at h2; exact Bool.noConfusion h2
      · rw [h] at h3; exact Bool.noConfusion h3
      · rw [h] at h4; exact Bool.noConfusion h4
  · intro sensor hs hse hsw h1 h2 h3 h4
    have hsome : (growInit args).isSome = true :=
      (growInit_isSome_iff args).2 ⟨⟨sensor, hs, hse⟩, hsw, h1, h2, h3, h4⟩
    obtain ⟨out, hout⟩ := Option.isSome_iff_exists.1 hsome
    exact ⟨out, hout, growInit_sched args out hout⟩

/-- The args dictionary of a valid configuration: sensor id, one
switch, every time boundary left to its default. -/
def args_valid : Args :=
  { uv_index_sensor := some "sensor.uv"
    uv_index_threshold := none
    switches := some ["switch.g1"]
    off_season_start := none
    off_season_end := none
    on_season_start := none
    on_season_end := none }

theorem C6_witness :
    args_valid.uv_index_sensor = some "sensor.uv"
    ∧ args_valid.switches.getD [] ≠ []
    ∧ (parse_time (args_valid.off_season_start.getD "09:00")).isSome = true
    ∧ (∃ out : InitOutcome, growInit args_valid = some out
        ∧ out.run_in_delay = 0 ∧ out.run_every_interval = 600
        ∧ out.run_daily_time = "00:01") := by
  refine ⟨rfl, by decide, by decide, ?_⟩
  exact (C6_init_validation args_valid).2 "sensor.uv" rfl (by decide) (by decide)
    (by decide) (by decide) (by decide) (by decide)

/-- Every iteration of the `control_lights` loop records its switch:
the attempted switches are exactly the configured list, whatever the
per-switch command outcomes are. -/
theorem control_lights_loop_attempts (env : HostEnv) (turn_on : Bool)
    (switches : List String) :
    (control_lights_loop env turn_on switches).map (fun p => p.1) = switches := by
  induction switches with
  | nil => rfl
  | cons s rest ih => simp [control_lights_loop, ih]

theorem control_lights_exc_attempts (env : HostEnv) (turn_on : Bool)
    (switches : List String) :
    (control_lights_exc env switches turn_on).map (fun p => p.1) = switches := by
  simp [control_lights_exc, pyTry, pure, Except.pure]
  exact control_lights_loop_attempts env turn_on switches

/-- C7: per-tick failures never escape and commands are best-effort
over the full switch list. `control_lights` attempts its command on
every configured switch even when some of the commands fail (each
iteration's failure is caught locally), and a tick — whatever the host
calls raise — completes with either no command at all or one batched
command covering every configured switch, never a partial batch and
never a propagated exception (`check_conditions_exc` is the body under
the source's outer `except Exception` handler, so it is total by
construction). -/
theorem C7_best_effort_no_escape (pyFloatE : String → Except Err ℚ)
    (cfg : Config) (env : HostEnv) (turn_on : Bool) :
    (control_lights_exc env cfg.switches turn_on).map (fun p => p.1) = cfg.switches
    ∧ (check_conditions_exc pyFloatE cfg env = []
        ∨ (check_conditions_exc pyFloatE cfg env).map (fun p => p.1) = cfg.switches) := by
  refine ⟨control_lights_exc_attempts env turn_on cfg.switches, ?_⟩
  unfold check_conditions_exc check_conditions_body
  by_cases hact : is_active_time cfg env.month env.time
  · rw [if_pos hact]
    cases huv : get_uv_index_exc pyFloatE env cfg.uv_sensor with
    | none => left; rfl
    | some uv =>
      cases hsw : cfg.switches with
      | nil =>
        left
        simp [pyTry, bind, Except.bind, pure, Except.pure, control_lights_exc,
          control_lights_loop]
      | cons s0 rest =>
        cases hg : env.get_state s0 with
        | error e => left; simp [pyTry, bind, Except.bind, hg]
        | ok st =>
          by_cases h1 : uv ≥ cfg.uv_threshold ∧ st = some "off"
          · left
            simp [pyTry, bind, Except.bind, hg, h1, pure, Except.pure]
          · by_cases h2 : uv < cfg.uv_threshold ∧ st = some "on"
            · left
              simp [pyTry, bind, Except.bind, hg, h1, h2, pure, Except.pure]
            · right
              simp only [pyTry, bind, Except.bind, hg, if_neg h1, if_neg h2]
              rw [← hsw]
              exact control_lights_exc_attempts env _ cfg.switches
  · rw [if_neg hact]
    left
    rfl

/-- C8: window membership is a pure function of month and time of day.
Summer is exactly the months 6, 7, 8; a summer month selects the
on-season window and every other month the off-season window; and a
time is active exactly when it lies in the selected window, inclusive
at both boundary instants (for a well-ordered window, the start and end
instants themselves are active). -/
theorem C8_window_membership (cfg : Config) (month : Nat) (t : PTime) :
    (is_summer_season month = true ↔ (month = 6 ∨ month = 7 ∨ month = 8))
    ∧ (is_summer_season month = true →
        (is_active_time cfg month t = true ↔
          (PTime.le cfg.on_season_start_time t = true
            ∧ PTime.le t cfg.on_season_end_time = true)))
    ∧ (is_summer_season month = false →
        (is_active_time cfg month t = true ↔
          (PTime.le cfg.off_season_start_time t = true
            ∧ PTime.le t cfg.off_season_end_time = true)))
    ∧ (is_summer_season month = true →
        PTime.le cfg.on_season_start_time cfg.on_season_end_time = true →
        is_active_time cfg month cfg.on_season_start_time = true
          ∧ is_active_time cfg month cfg.on_season_end_time = true)
    ∧ (is_summer_season month = false →
        PTime.le cfg.off_season_start_time cfg.off_season_end_time = true →
        is_active_time cfg month cfg.off_season_start_time = true
          ∧ is_active_time cfg month cfg.off_season_end_time = true) := by
  refine ⟨?_, ?_, ?_, ?_, ?_⟩
  · simp only [is_summer_season, Bool.and_eq_true, decide_eq_true_eq]
    omega
  · intro h; simp [is_active_time, h]
  · intro h; simp [is_active_time, h]
  · intro h hle; simp [is_active_time, h, PTime.le_refl, hle]
  · intro h hle; simp [is_active_time, h, PTime.le_refl, hle]

theorem C8_witness :
    is_summer_season 7 = true
    ∧ (is_active_time cfg_default 7 ⟨10, 0⟩ = true ↔
        (PTime.le cfg_default.on_season_start_time ⟨10, 0⟩ = true
          ∧ PTime.le ⟨10, 0⟩ cfg_default.on_season_end_time = true))
    ∧ is_active_time cfg_default 7 cfg_default.on_season_start_time = true
    ∧ is_active_time cfg_default 7 cfg_default.on_season_end_time = true := by
  have h := C8_window_membership cfg_default 7 ⟨10, 0⟩
  have hb := h.2.2.2.1 (by decide) (by decide)
  exact ⟨by decide, h.2.1 (by decide), hb.1, hb.2⟩

/-- C9: the daily season-boundary hook only logs — it issues no switch
command and returns the configuration unchanged; window enforcement is
left to the next regular evaluation tick. -/
theorem C9_daily_hook_frame (cfg : Config) (month : Nat) :
    (update_time_ranges cfg month).1 = cfg
      ∧ (update_time_ranges cfg month).2.1 = [] :=
  ⟨rfl, rfl⟩

/-- An inverted on-season window (start 18:00, end 06:00), otherwise
valid args. -/
def args_inverted : Args :=
  { uv_index_sensor := some "sensor.uv"
    uv_index_threshold := none
    switches := some ["switch.g1"]
    off_season_start := none
    off_season_end := none
    on_season_start := some "18:00"
    on_season_end := some "06:00" }

/-- The configuration `initialize` builds from `args_inverted`. -/
def cfg_inverted : Config :=
  { uv_sensor := "sensor.uv"
    uv_threshold := 5
    switches := ["switch.g1"]
    off_season_start := "09:00"
    off_season_end := "15:00"
    on_season_start := "18:00"
    on_season_end := "06:00"
    off_season_start_time := ⟨9, 0⟩
    off_season_end_time := ⟨15, 0⟩
    on_season_start_time := ⟨18, 0⟩
    on_season_end_time := ⟨6, 0⟩ }

/-- A season whose configured window has start later than end admits no
active time at all: `start <= t <= end` needs transitivity to give
`start <= end`. -/
theorem inactive_of_inverted_window (cfg : Config) (month : Nat) (t : PTime)
    (h : (if is_summer_season month then
            PTime.le cfg.on_season_start_time cfg.on_season_end_time
          else
            PTime.le cfg.off_season_start_time cfg.off_season_end_time) = false) :
    is_active_time cfg month t = false := by
  unfold is_active_time
  by_cases hs : is_summer_season month = true
  · rw [if_pos hs]; rw [if_pos hs] at h
    cases hst : PTime.le cfg.on_season_start_time t with
    | false => simp [hst]
    | true =>
      cases hte : PTime.le t cfg.on_season_end_time with
      | false => simp [hte]
      | true =>
        have h2 := PTime.le_trans hst hte
        rw [h2] at h
        exact Bool.noConfusion h
  · rw [if_neg hs]; rw [if_neg hs] at h
    cases hst : PTime.le cfg.off_season_start_time t with
    | false => simp [hst]
    | true =>
      cases hte : PTime.le t cfg.off_season_end_time with
      | false => simp [hte]
      | true =>
        have h2 := PTime.le_trans hst hte
        rw [h2] at h
        exact Bool.noConfusion h

/-- C10: a configuration whose active-window start is later than its
end is accepted by `initialize` without error (the start ≤ end
invariant is never validated), and under such a configuration
`is_active_time` is false at every time of day in the corresponding
season, so the evaluation tick never issues any switch command — in
particular it never commands the switches on — in that season. -/
theorem C10_inverted_window_accepted_and_inert :
    ((growInit args_inverted).map
        (fun o => (o.config.on_season_start_time, o.config.on_season_end_time))
      = some (⟨18, 0⟩, ⟨6, 0⟩))
    ∧ (∀ (cfg : Config) (month : Nat) (t : PTime),
        is_summer_season month = true →
        PTime.le cfg.on_season_start_time cfg.on_season_end_time = false →
        is_active_time cfg month t = false)
    ∧ (∀ (cfg : Config) (month : Nat) (t : PTime),
        is_summer_season month = false →
        PTime.le cfg.off_season_start_time cfg.off_season_end_time = false →
        is_active_time cfg month t = false)
    ∧ (∀ (pyFloat : String → Option ℚ) (cfg : Config) (env : TickEnv),
        (if is_summer_season env.month then
            PTime.le cfg.on_season_start_time cfg.on_season_end_time
          else
            PTime.le cfg.off_season_start_time cfg.off_season_end_time) = false →
        check_conditions pyFloat cfg env = none
          ∧ tick_commands pyFloat cfg env = []) := by
  refine ⟨by decide, ?_, ?_, ?_⟩
  · intro cfg month t hs hinv
    exact inactive_of_inverted_window cfg month t (by rw [if_pos hs]; exact hinv)
  · intro cfg month t hs hinv
    refine inactive_of_inverted_window cfg month t ?_
    rw [if_neg ?_]
    · exact hinv
    · rw [hs]; exact Bool.noConfusion
  · intro pyFloat cfg env h
    exact tick_skipped_of_inactive pyFloat cfg env
      (inactive_of_inverted_window cfg env.month env.time h)

theorem C10_witness :
    is_summer_season 7 = true
    ∧ PTime.le cfg_inverted.on_season_start_time cfg_inverted.on_season_end_time = false
    ∧ is_active_time cfg_inverted 7 ⟨12, 0⟩ = false
    ∧ check_conditions pyFloat_sample cfg_inverted ⟨7, ⟨12, 0⟩, some "3", some "off"⟩ = none
    ∧ tick_commands pyFloat_sample cfg_inverted ⟨7, ⟨12, 0⟩, some "3", some "off"⟩ = [] := by
  have h := C10_inverted_window_accepted_and_inert
  have h2 := h.2.1 cfg_inverted 7 ⟨12, 0⟩ (by decide) (by decide)
  have h4 := h.2.2.2 pyFloat_sample cfg_inverted ⟨7, ⟨12, 0⟩, some "3", some "off"⟩
    (by decide)
  exact ⟨by decide, by decide, h2, h4.1, h4.2⟩

end GrowLights
